import Mathlib

/-!
Shallow embedding of `src/PINN/lssvr_bratu.py` (LS-SVR solver for the
fractional Bratu equation) and proofs of the specification claims.

Vectors are modelled as functions `ℕ → ℝ` together with an explicit length,
matrices as `ℕ → ℕ → ℝ`; machine floats are modelled as real numbers.
Python float exponentiation `x ** y` is modelled by `Real.rpow` (notably,
both give `0 ** 0 = 1`), `scipy.special.gamma` by `Real.Gamma`, and
`np.exp` by `Real.exp`.
-/

namespace Bratu

/-- Grid spacing as computed by `L1_caputo`: `1/(n-1)` when no grid is
supplied, else `(x[-1] - x[0])/(n-1)`.  Division by zero in ℝ yields 0. -/
noncomputable def L1_h (n : ℕ) (x_grid : Option (ℕ → ℝ)) : ℝ :=
  match x_grid with
  | none => 1 / ((n : ℝ) - 1)
  | some x => (x (n - 1) - x 0) / ((n : ℝ) - 1)

/-- The prefactor `coeff = 1 / (gamma(2 - alpha) * h ** alpha)` of `L1_caputo`. -/
noncomputable def L1_coeff (alpha h : ℝ) : ℝ :=
  1 / (Real.Gamma (2 - alpha) * h ^ alpha)

/-- The inner-loop factor `diff = (i-j) ** (1-alpha) - (i-j-1) ** (1-alpha)`
of `L1_caputo` (natural subtraction matches the Python ints since `j < i`). -/
noncomputable def L1_weight (alpha : ℝ) (i j : ℕ) : ℝ :=
  ((i - j : ℕ) : ℝ) ^ (1 - alpha) - ((i - j - 1 : ℕ) : ℝ) ^ (1 - alpha)

/-- `L1_caputo(u_on_grid, alpha, x_grid)` from the source: the result array is
initialised to zeros and entries `1 ≤ i < n` are set to
`coeff * Σ_{j<i} (u[j+1] - u[j]) * diff(i,j)`.  Indices outside the array
(`i ≥ n`) are mapped to 0 by the embedding. -/
noncomputable def L1_caputo (u : ℕ → ℝ) (n : ℕ) (alpha : ℝ)
    (x_grid : Option (ℕ → ℝ)) : ℕ → ℝ :=
  fun i =>
    if i = 0 ∨ n ≤ i then 0
    else
      L1_coeff alpha (L1_h n x_grid) *
        ∑ j ∈ Finset.range i, (u (j + 1) - u j) * L1_weight alpha i j

/-- `rbf_kernel(x, y, gamma) = exp(-gamma * (x - y) ** 2)`. -/
noncomputable def rbf_kernel (gamma x y : ℝ) : ℝ :=
  Real.exp (-gamma * (x - y) ^ 2)

/-- The kernel matrix of `build_kernel_matrices`:
`K_mat[j, i] = exp(-gamma * (x[j] - x[i]) ** 2)`. -/
noncomputable def K_mat (x : ℕ → ℝ) (gamma : ℝ) : ℕ → ℕ → ℝ :=
  fun j i => Real.exp (-gamma * (x j - x i) ^ 2)

/-- The fractional-kernel matrix of `build_kernel_matrices`:
column `i` is `L1_caputo(K_mat[:, i], alpha, x_grid=x)`. -/
noncomputable def D_alpha_K (x : ℕ → ℝ) (n : ℕ) (alpha gamma : ℝ) : ℕ → ℕ → ℝ :=
  fun j i => L1_caputo (fun m => K_mat x gamma m i) n alpha (some x) j

/-- `build_kernel_matrices(x_grid, alpha, gamma)` returns the pair `(K_mat, D_alpha_K)`. -/
noncomputable def build_kernel_matrices (x : ℕ → ℝ) (n : ℕ) (alpha gamma : ℝ) :
    (ℕ → ℕ → ℝ) × (ℕ → ℕ → ℝ) :=
  (K_mat x gamma, D_alpha_K x n alpha gamma)

/-- Matrix–vector product `(M @ v)[i] = Σ_{j<n} M[i,j] * v[j]`. -/
noncomputable def matVec (n : ℕ) (M : ℕ → ℕ → ℝ) (v : ℕ → ℝ) : ℕ → ℝ :=
  fun i => ∑ j ∈ Finset.range n, M i j * v j

/-- `lssvr_bratu_residual(alpha, K_mat, D_alpha_K, lam, N)`: the result array
is initialised to zeros, `F[0] = u[0]`, `F[N-1] = u[N-1]`, and
`F[i] = D_alpha_u[i] + lam * exp(u[i])` for `1 ≤ i ≤ N-2`, where
`u = K_mat @ alpha` and `D_alpha_u = D_alpha_K @ alpha`.  (For `N = 1` the
assignments to `F[0]` and `F[N-1]` coincide, which the branch order below
reproduces.) -/
noncomputable def lssvr_bratu_residual (a : ℕ → ℝ) (K D : ℕ → ℕ → ℝ)
    (lam : ℝ) (n : ℕ) : ℕ → ℝ :=
  fun i =>
    if n ≤ i then 0
    else if i = 0 then matVec n K a 0
    else if i = n - 1 then matVec n K a (n - 1)
    else matVec n D a i + lam * Real.exp (matVec n K a i)

/-- `lssvr_predict(x_eval, x_colloc, alpha, gamma)`:
`(K_eval @ alpha)[m]` with `K_eval[m, i] = exp(-gamma * (x_eval[m] - x_colloc[i]) ** 2)`. -/
noncomputable def lssvr_predict (x_eval x_colloc : ℕ → ℝ) (a : ℕ → ℝ)
    (gamma : ℝ) (n : ℕ) : ℕ → ℝ :=
  fun m => ∑ i ∈ Finset.range n, Real.exp (-gamma * (x_eval m - x_colloc i) ^ 2) * a i

/-- `np.linspace(0, 1, n)`: the point `i/(n-1)` (for `n = 1` this is the
single point 0, matching division by zero in ℝ). -/
noncomputable def linspace01 (n : ℕ) : ℕ → ℝ :=
  fun i => (i : ℝ) / ((n : ℝ) - 1)

/-- The quadruple returned by `scipy.optimize.fsolve(..., full_output=True)`
as consumed by `solve_lssvr_bratu`: the solution array, the integer status
`ier` (1 means converged) and the diagnostic message `msg` (the `infodict`
is unused by the caller and omitted). -/
structure FsolveOutput where
  sol : ℕ → ℝ
  ier : ℤ
  msg : String

/-- The value returned by `solve_lssvr_bratu`: the tuple
`(x_grid, alpha, K_mat, D_alpha_K, wall_time)`.  The wall time is an
elapsed-clock reading outside the numeric model and is omitted; no other
component is dropped — in particular the tuple carries no convergence
status and no message. -/
structure SolveResult where
  grid : ℕ → ℝ
  coef : ℕ → ℝ
  Km : ℕ → ℕ → ℝ
  Dm : ℕ → ℕ → ℝ

/-- `solve_lssvr_bratu(alpha_param, lam, N, gamma, x_grid)`.  The external
root finder `fsolve` is passed as a parameter: it receives the residual
function and the zero initial guess and returns an `FsolveOutput`.  An
explicit grid is passed together with its length (`N = len(x_grid)`).
The source prints a warning when `ier ≠ 1` and returns the same tuple
either way; printing is outside the returned value. -/
noncomputable def solve_lssvr_bratu
    (fsolve : ((ℕ → ℝ) → ℕ → ℝ) → (ℕ → ℝ) → FsolveOutput)
    (alpha_param lam : ℝ) (N : ℕ) (gamma : ℝ)
    (x_grid : Option ((ℕ → ℝ) × ℕ)) : SolveResult :=
  let grid := match x_grid with
    | none => linspace01 N
    | some p => p.1
  let n := match x_grid with
    | none => N
    | some p => p.2
  let KD := build_kernel_matrices grid n alpha_param gamma
  let out := fsolve (fun a => lssvr_bratu_residual a KD.1 KD.2 lam n) (fun _ => 0)
  ⟨grid, out.sol, KD.1, KD.2⟩

/-- A root finder that returns its initial guess with status `ier = 1`. -/
noncomputable def fsolveOk : ((ℕ → ℝ) → ℕ → ℝ) → (ℕ → ℝ) → FsolveOutput :=
  fun _ x0 => ⟨x0, 1, "The solution converged."⟩

/-- A root finder that returns its initial guess with a non-convergence
status `ier = 5` and a diagnostic message. -/
noncomputable def fsolveFail : ((ℕ → ℝ) → ℕ → ℝ) → (ℕ → ℝ) → FsolveOutput :=
  fun _ x0 => ⟨x0, 5, "The iteration is not making good progress."⟩

/-- Claim C1: for every coefficient vector, every pair of N-by-N matrices
K and D (N ≥ 2) and every lambda, the collocation residual F satisfies
`F[0] = (K@a)[0]`, `F[N-1] = (K@a)[N-1]`, and
`F[i] = (D@a)[i] + lam * exp((K@a)[i])` for every interior `1 ≤ i ≤ N-2`. -/
theorem claim_C1_residual_entries (a : ℕ → ℝ) (K D : ℕ → ℕ → ℝ) (lam : ℝ)
    (N : ℕ) (hN : 2 ≤ N) :
    lssvr_bratu_residual a K D lam N 0 = matVec N K a 0 ∧
    lssvr_bratu_residual a K D lam N (N - 1) = matVec N K a (N - 1) ∧
    ∀ i, 1 ≤ i → i ≤ N - 2 →
      lssvr_bratu_residual a K D lam N i =
        matVec N D a i + lam * Real.exp (matVec N K a i) := by
  refine ⟨?_, ?_, ?_⟩
  · have h0 : ¬ N ≤ 0 := by omega
    simp [lssvr_bratu_residual, h0]
  · have h0 : ¬ N ≤ N - 1 := by omega
    by_cases h1 : N - 1 = 0
    · omega
    · simp [lssvr_bratu_residual, h0, h1]
  · intro i hi1 hi2
    have h0 : ¬ N ≤ i := by omega
    have h1 : i ≠ 0 := by omega
    have h2 : i ≠ N - 1 := by omega
    simp [lssvr_bratu_residual, h0, h1, h2]

theorem claim_C1_witness :
    (2 ≤ 3) ∧
    (lssvr_bratu_residual (fun _ => (1 : ℝ)) (fun _ _ => 2) (fun _ _ => 3) 5 3 0 =
        matVec 3 (fun _ _ => 2) (fun _ => (1 : ℝ)) 0 ∧
      lssvr_bratu_residual (fun _ => (1 : ℝ)) (fun _ _ => 2) (fun _ _ => 3) 5 3 (3 - 1) =
        matVec 3 (fun _ _ => 2) (fun _ => (1 : ℝ)) (3 - 1) ∧
      ∀ i, 1 ≤ i → i ≤ 3 - 2 →
        lssvr_bratu_residual (fun _ => (1 : ℝ)) (fun _ _ => 2) (fun _ _ => 3) 5 3 i =
          matVec 3 (fun _ _ => 3) (fun _ => (1 : ℝ)) i +
            5 * Real.exp (matVec 3 (fun _ _ => 2) (fun _ => (1 : ℝ)) i)) :=
  ⟨by norm_num,
    claim_C1_residual_entries (fun _ => (1 : ℝ)) (fun _ _ => 2) (fun _ _ => 3) 5 3
      (by norm_num)⟩

/-- Claim C2: on a uniform grid with spacing h, the L1 operator returns
`D[0] = 0` and, for `1 ≤ i < n`,
`D[i] = (1/(Gamma(2-alpha) * h^alpha)) * Σ_{j<i} (u[j+1]-u[j]) * ((i-j)^(1-alpha) - (i-j-1)^(1-alpha))`. -/
theorem claim_C2_l1_formula (u : ℕ → ℝ) (n : ℕ) (x : ℕ → ℝ) (alpha h : ℝ)
    (hn : 2 ≤ n) (ha1 : 0 < alpha) (ha2 : alpha ≤ 1)
    (hx : ∀ i, i < n → x i = x 0 + (i : ℝ) * h) :
    L1_caputo u n alpha (some x) 0 = 0 ∧
    ∀ i, 1 ≤ i → i < n →
      L1_caputo u n alpha (some x) i =
        (1 / (Real.Gamma (2 - alpha) * h ^ alpha)) *
          ∑ j ∈ Finset.range i, (u (j + 1) - u j) *
            (((i - j : ℕ) : ℝ) ^ (1 - alpha) - ((i - j - 1 : ℕ) : ℝ) ^ (1 - alpha)) := by
  have hcast : ((n - 1 : ℕ) : ℝ) = (n : ℝ) - 1 := by
    have : 1 ≤ n := by omega
    push_cast [Nat.cast_sub this]
    ring
  have hne : ((n : ℝ) - 1) ≠ 0 := by
    have : (2 : ℝ) ≤ (n : ℝ) := by exact_mod_cast hn
    linarith
  have hh : L1_h n (some x) = h := by
    have hend : x (n - 1) = x 0 + ((n - 1 : ℕ) : ℝ) * h := hx (n - 1) (by omega)
    simp only [L1_h, hend, hcast]
    field_simp
  refine ⟨by simp [L1_caputo], ?_⟩
  intro i hi1 hi2
  have h0 : ¬ (i = 0 ∨ n ≤ i) := by omega
  simp only [L1_caputo, h0, if_false, hh, L1_coeff, L1_weight]

theorem claim_C2_witness :
    (2 ≤ 3) ∧ ((0 : ℝ) < 1 / 2) ∧ ((1 / 2 : ℝ) ≤ 1) ∧
    (L1_caputo (fun j => (j : ℝ)) 3 (1 / 2) (some (fun i => (i : ℝ) / 2)) 0 = 0 ∧
      ∀ i, 1 ≤ i → i < 3 →
        L1_caputo (fun j => (j : ℝ)) 3 (1 / 2) (some (fun i => (i : ℝ) / 2)) i =
          (1 / (Real.Gamma (2 - 1 / 2) * (1 / 2 : ℝ) ^ (1 / 2 : ℝ))) *
            ∑ j ∈ Finset.range i, (((j + 1 : ℕ) : ℝ) - (j : ℝ)) *
              (((i - j : ℕ) : ℝ) ^ (1 - 1 / 2 : ℝ) -
                ((i - j - 1 : ℕ) : ℝ) ^ (1 - 1 / 2 : ℝ))) :=
  ⟨by norm_num, by norm_num, by norm_num,
    claim_C2_l1_formula (fun j => (j : ℝ)) 3 (fun i => (i : ℝ) / 2) (1 / 2) (1 / 2)
      (by norm_num) (by norm_num) (by norm_num)
      (by intro i _; push_cast; ring)⟩

/-- Claim C5 (code evaluated at the failing configuration): at `alpha = 1`
exactly, every weight `(i-j)^(1-alpha) - (i-j-1)^(1-alpha)` is `1 - 1 = 0`
(real exponentiation gives `0 ^ 0 = 1`, exactly as Python `0 ** 0.0 == 1.0`),
so the L1 operator returns 0 at every index for every input sequence —
it does not approximate the first-order finite difference `(u[i]-u[i-1])/h`. -/
theorem claim_C5_alpha_one_identically_zero (u : ℕ → ℝ) (n : ℕ)
    (xg : Option (ℕ → ℝ)) (i : ℕ) :
    L1_caputo u n 1 xg i = 0 := by
  unfold L1_caputo
  split
  · rfl
  · have hz : ∀ j ∈ Finset.range i, (u (j + 1) - u j) * L1_weight 1 i j = 0 := by
      intro j _
      have hw : L1_weight 1 i j = 0 := by
        simp [L1_weight, Real.rpow_zero]
      rw [hw, mul_zero]
    rw [Finset.sum_congr rfl hz]
    simp

/-- Claim C6: the kernel matrix built by `build_kernel_matrices` satisfies
`K[j,i] = exp(-gamma*(x[j]-x[i])^2)`, is symmetric, has strictly positive
entries, and has unit diagonal. -/
theorem claim_C6_kernel_matrix (x : ℕ → ℝ) (n : ℕ) (alpha gamma : ℝ)
    (hg : 0 < gamma) :
    (∀ j i, (build_kernel_matrices x n alpha gamma).1 j i =
      Real.exp (-gamma * (x j - x i) ^ 2)) ∧
    (∀ j i, (build_kernel_matrices x n alpha gamma).1 i j =
      (build_kernel_matrices x n alpha gamma).1 j i) ∧
    (∀ j i, 0 < (build_kernel_matrices x n alpha gamma).1 j i) ∧
    (∀ i, (build_kernel_matrices x n alpha gamma).1 i i = 1) := by
  refine ⟨fun j i => rfl, ?_, ?_, ?_⟩
  · intro j i
    simp only [build_kernel_matrices, K_mat]
    congr 1
    ring
  · intro j i
    exact Real.exp_pos _
  · intro i
    simp [build_kernel_matrices, K_mat]

theorem claim_C6_witness :
    ((0 : ℝ) < 10) ∧
    ((∀ j i, (build_kernel_matrices (fun m => (m : ℝ)) 3 (3 / 4) 10).1 j i =
        Real.exp (-10 * ((j : ℝ) - (i : ℝ)) ^ 2)) ∧
      (∀ j i, (build_kernel_matrices (fun m => (m : ℝ)) 3 (3 / 4) 10).1 i j =
        (build_kernel_matrices (fun m => (m : ℝ)) 3 (3 / 4) 10).1 j i) ∧
      (∀ j i, 0 < (build_kernel_matrices (fun m => (m : ℝ)) 3 (3 / 4) 10).1 j i) ∧
      (∀ i, (build_kernel_matrices (fun m => (m : ℝ)) 3 (3 / 4) 10).1 i i = 1)) :=
  ⟨by norm_num, claim_C6_kernel_matrix (fun m => (m : ℝ)) 3 (3 / 4) 10 (by norm_num)⟩

/-- The predictor evaluated at the collocation grid itself is exactly the
kernel-matrix–vector product. -/
theorem lssvr_predict_on_grid (x : ℕ → ℝ) (a : ℕ → ℝ) (gamma : ℝ) (n m : ℕ) :
    lssvr_predict x x a gamma n m = matVec n (K_mat x gamma) a m := rfl

/-- Claim C7: if the collocation residual (with K and D built from the grid
and the same gamma) vanishes at a coefficient vector, then the predictor
evaluated exactly at the grid yields 0 at the first and the last grid point. -/
theorem claim_C7_roundtrip_boundary (x : ℕ → ℝ) (n : ℕ) (alpha gamma lam : ℝ)
    (a : ℕ → ℝ) (hn : 2 ≤ n)
    (hres : ∀ i, lssvr_bratu_residual a (build_kernel_matrices x n alpha gamma).1
      (build_kernel_matrices x n alpha gamma).2 lam n i = 0) :
    lssvr_predict x x a gamma n 0 = 0 ∧
    lssvr_predict x x a gamma n (n - 1) = 0 := by
  have h0 := hres 0
  have h1 := hres (n - 1)
  have hn0 : ¬ n ≤ 0 := by omega
  have hn1 : ¬ n ≤ n - 1 := by omega
  have hne : n - 1 ≠ 0 := by omega
  simp only [lssvr_bratu_residual, hn0, if_false, if_pos rfl] at h0
  simp only [lssvr_bratu_residual, hn1, hne, if_false, if_pos rfl] at h1
  exact ⟨by rw [lssvr_predict_on_grid]; exact h0,
    by rw [lssvr_predict_on_grid]; exact h1⟩

theorem claim_C7_witness :
    lssvr_predict (linspace01 2) (linspace01 2) (fun _ => 0) 10 2 0 = 0 ∧
    lssvr_predict (linspace01 2) (linspace01 2) (fun _ => 0) 10 2 (2 - 1) = 0 :=
  claim_C7_roundtrip_boundary (linspace01 2) 2 (3 / 4) 10 1 (fun _ => 0)
    (by norm_num)
    (by
      intro i
      unfold lssvr_bratu_residual
      split_ifs with h1 h2 h3
      · rfl
      · simp [matVec]
      · simp [matVec]
      · omega)

/-- Claim C8: the L1 operator applied to the all-zero sequence returns the
all-zero sequence. -/
theorem claim_C8_zero_sequence (n : ℕ) (x : ℕ → ℝ) (alpha : ℝ)
    (hn : 2 ≤ n) (ha1 : 0 < alpha) (ha2 : alpha ≤ 1) :
    ∀ i, L1_caputo (fun _ => 0) n alpha (some x) i = 0 := by
  intro i
  unfold L1_caputo
  split
  · rfl
  · simp

theorem claim_C8_witness :
    (2 ≤ 2) ∧ ((0 : ℝ) < 3 / 4) ∧ ((3 / 4 : ℝ) ≤ 1) ∧
    (∀ i, L1_caputo (fun _ => 0) 2 (3 / 4) (some (linspace01 2)) i = 0) :=
  ⟨by norm_num, by norm_num, by norm_num,
    claim_C8_zero_sequence 2 (linspace01 2) (3 / 4) (by norm_num) (by norm_num)
      (by norm_num)⟩

/-- Claim C9: the solve entry point is deterministic — two runs with the
same root-finding procedure and equal inputs (alpha, lambda, N, gamma, grid)
return equal results, in particular the same grid, coefficients, K and D.
(The wall-clock reading, which may differ, is outside the returned model.) -/
theorem claim_C9_deterministic
    (fs : ((ℕ → ℝ) → ℕ → ℝ) → (ℕ → ℝ) → FsolveOutput)
    (a1 a2 l1 l2 : ℝ) (N1 N2 : ℕ) (g1 g2 : ℝ)
    (xg1 xg2 : Option ((ℕ → ℝ) × ℕ))
    (h : a1 = a2 ∧ l1 = l2 ∧ N1 = N2 ∧ g1 = g2 ∧ xg1 = xg2) :
    solve_lssvr_bratu fs a1 l1 N1 g1 xg1 = solve_lssvr_bratu fs a2 l2 N2 g2 xg2 := by
  obtain ⟨h1, h2, h3, h4, h5⟩ := h
  rw [h1, h2, h3, h4, h5]

theorem claim_C9_witness :
    solve_lssvr_bratu fsolveOk 0.75 1 51 10 none =
      solve_lssvr_bratu fsolveOk 0.75 1 51 10 none :=
  claim_C9_deterministic fsolveOk 0.75 0.75 1 1 51 51 10 10 none none
    ⟨rfl, rfl, rfl, rfl, rfl⟩

/-- Claim C10: adding a constant to every sample leaves the L1 operator's
output unchanged — it depends only on consecutive differences. -/
theorem claim_C10_translation_invariance (u : ℕ → ℝ) (c : ℝ) (n : ℕ)
    (alpha : ℝ) (xg : Option (ℕ → ℝ))
    (hn : 2 ≤ n) (ha1 : 0 < alpha) (ha2 : alpha ≤ 1) :
    ∀ i, L1_caputo (fun j => u j + c) n alpha xg i = L1_caputo u n alpha xg i := by
  intro i
  unfold L1_caputo
  split
  · rfl
  · congr 1
    refine Finset.sum_congr rfl ?_
    intro j _
    ring

theorem claim_C10_witness :
    (2 ≤ 2) ∧ ((0 : ℝ) < 1) ∧ ((1 : ℝ) ≤ 1) ∧
    (∀ i, L1_caputo (fun j => (j : ℝ) + 7) 2 1 (some (linspace01 2)) i =
      L1_caputo (fun j => (j : ℝ)) 2 1 (some (linspace01 2)) i) :=
  ⟨by norm_num, by norm_num, by norm_num,
    claim_C10_translation_invariance (fun j => (j : ℝ)) 7 2 1 (some (linspace01 2))
      (by norm_num) (by norm_num) (by norm_num)⟩

/-- Claim C3 counterexample: the value returned by the solve entry point
carries no convergence indicator — a run whose root finder reports
non-convergence (`ier = 5` with a diagnostic message) returns exactly the
same outputs as a converged run (`ier = 1`) with the same coefficients, so
no programmatic check on the returned outputs can distinguish them. -/
theorem claim_C3_counterexample :
    solve_lssvr_bratu fsolveFail 0.75 1 51 10 none =
      solve_lssvr_bratu fsolveOk 0.75 1 51 10 none := rfl

/-- Claim C3 amended: the solve entry point returns only
(grid, coefficients, K, D, wall time); the root finder's status `ier` and
message `msg` are only printed as a warning, never returned, so the result
depends solely on the solution array the root finder produces. -/
theorem claim_C3_amended_no_status_in_output
    (fs1 fs2 : ((ℕ → ℝ) → ℕ → ℝ) → (ℕ → ℝ) → FsolveOutput)
    (a l : ℝ) (N : ℕ) (g : ℝ) (xg : Option ((ℕ → ℝ) × ℕ))
    (hsol : ∀ f x0, (fs1 f x0).sol = (fs2 f x0).sol) :
    solve_lssvr_bratu fs1 a l N g xg = solve_lssvr_bratu fs2 a l N g xg := by
  simp only [solve_lssvr_bratu, hsol]

theorem claim_C3_witness :
    solve_lssvr_bratu fsolveFail 0.75 1 3 10 none =
      solve_lssvr_bratu fsolveOk 0.75 1 3 10 none :=
  claim_C3_amended_no_status_in_output fsolveFail fsolveOk 0.75 1 3 10 none
    (fun _ _ => rfl)

/-- Claim C4 counterexample: invalid configurations are not rejected — with
the degenerate resolution `N = 1`, with `gamma = -1 ≤ 0`, and with a
supplied degenerate grid (three coincident points, all 0), the solve entry
point proceeds to kernel-matrix construction and returns a result whose
kernel matrix is fully built (its (0,0) entry is `exp(0) = 1`);
no validation error is raised anywhere in the source. -/
theorem claim_C4_counterexample :
    (solve_lssvr_bratu fsolveOk 0.75 1 1 10 none).Km 0 0 = 1 ∧
    (solve_lssvr_bratu fsolveOk 0.75 1 5 (-1) none).Km 0 0 = 1 ∧
    (solve_lssvr_bratu fsolveOk 0.75 1 51 10 (some (fun _ => 0, 3))).Km 0 0 = 1 := by
  refine ⟨?_, ?_, ?_⟩ <;>
    simp [solve_lssvr_bratu, build_kernel_matrices, K_mat]

/-- Claim C4 amended: the solve entry point performs no input validation:
for every configuration — including N = 1, gamma ≤ 0, and a degenerate
supplied grid — it proceeds to kernel-matrix construction and returns the
constructed matrices `K_mat` and `D_alpha_K`, on the default grid when no
grid is supplied and on the supplied grid otherwise, rather than failing
fast with a validation error. -/
theorem claim_C4_amended_no_validation
    (fs : ((ℕ → ℝ) → ℕ → ℝ) → (ℕ → ℝ) → FsolveOutput)
    (a l : ℝ) (N : ℕ) (g : ℝ) (p : (ℕ → ℝ) × ℕ)
    (hbad : N = 1 ∨ g ≤ 0 ∨ (∀ i, p.1 i = p.1 0)) :
    ((solve_lssvr_bratu fs a l N g none).Km = K_mat (linspace01 N) g ∧
      (solve_lssvr_bratu fs a l N g none).Dm = D_alpha_K (linspace01 N) N a g) ∧
    ((solve_lssvr_bratu fs a l N g (some p)).Km = K_mat p.1 g ∧
      (solve_lssvr_bratu fs a l N g (some p)).Dm = D_alpha_K p.1 p.2 a g) :=
  ⟨⟨rfl, rfl⟩, ⟨rfl, rfl⟩⟩

theorem claim_C4_witness :
    ((1 : ℕ) = 1 ∨ (10 : ℝ) ≤ 0 ∨ (∀ i : ℕ, (0 : ℝ) = 0)) ∧
    (((solve_lssvr_bratu fsolveOk 0.75 1 1 10 none).Km = K_mat (linspace01 1) 10 ∧
        (solve_lssvr_bratu fsolveOk 0.75 1 1 10 none).Dm =
          D_alpha_K (linspace01 1) 1 0.75 10) ∧
      ((solve_lssvr_bratu fsolveOk 0.75 1 1 10 (some (fun _ => 0, 3))).Km =
          K_mat (fun _ => 0) 10 ∧
        (solve_lssvr_bratu fsolveOk 0.75 1 1 10 (some (fun _ => 0, 3))).Dm =
          D_alpha_K (fun _ => 0) 3 0.75 10)) :=
  ⟨Or.inl rfl,
    claim_C4_amended_no_validation fsolveOk 0.75 1 1 10 (fun _ => 0, 3) (Or.inl rfl)⟩

end Bratu
